import Mathlib

/-!
Shallow embedding of `src/modules/sensing_modules/shimmer/sensing/device/gsrplus.py`
(class `ShimmerGSRPlus`), a session wrapper over an external Shimmer3 driver.

The external driver (`Shimmer3`) is modelled as a stub: a record of the
outcomes it reports to the session (connection state, boolean results of the
configuration calls, and the sequence of packet batches returned by
`read_data_packet_extended`).  Every driver method invocation made by the
session is recorded in an event trace, so claims about which driver calls
happen (and in which order) are statements about that trace.

Python run-time errors that the wrapper itself can produce are modelled with
`Except PyErr`; sample field values are modelled by an arbitrary type `α`
(the wrapper moves them around without computing on them).
-/

/-- Bluetooth state constants of `shimmer_util` observed by the wrapper
(`su.BT_CONNECTED` is the only one it compares against). -/
inductive BtState
  | idle
  | btConnected
  | btStreaming
  deriving DecidableEq, BEq, Repr

/-- Python exceptions the wrapper can raise:
`RuntimeError("Bluetooth is not connected.")` in `stream`,
`AttributeError` from `chosen_port.device` on a value without that attribute,
`IndexError` from `pkt[2] / pkt[3] / pkt[4]` on a short packet,
`KeyError` from `available_ports[index]` on a bad interactive choice. -/
inductive PyErr
  | runtimeError (msg : String)
  | attributeError
  | indexError
  | keyError
  deriving DecidableEq, BEq, Repr

/-- One driver-method invocation performed by the session (the event trace). -/
inductive Ev (α : Type)
  | connect (com_port : String)
  | set_sampling_rate (hz : Int)
  | set_enabled_sensors
  | set_active_gsr_mu
  | print_object_properties
  | read_current_state
  | start_bt_streaming
  | read_data_packet_extended (calibrated : Bool)
  | disconnect (reset_obj_to_init : Bool)
  deriving DecidableEq, BEq, Repr

/-- Stub of the external `Shimmer3` driver: the outcomes it reports back to
the session.  `batches i` is the `(n, packets)` pair returned by the `i`-th
call to `read_data_packet_extended`; each packet is an ordered tuple,
modelled as a list of field values. -/
structure Driver (α : Type) where
  current_state : BtState
  connect_result : Bool
  set_sampling_rate_result : Bool
  set_enabled_sensors_result : Bool
  set_active_gsr_mu_result : Bool
  batches : Nat → Nat × List (List α)

/-- The argument actually bound to `chosen_port` in `connect`: either a plain
Python `str` (which has no `.device` attribute) or a `ListPortInfo`-like
object exposing a `device` path string. -/
inductive PortLike
  | pyStr (s : String)
  | portInfo (device : String)
  deriving DecidableEq, BEq, Repr

/-- Python attribute access `chosen_port.device`. -/
def PortLike.deviceAttr : PortLike → Except PyErr String
  | .pyStr _ => .error .attributeError
  | .portInfo d => .ok d

/-- The session object: `self._device` and `self.sampling_rate`, both
assigned in `__init__` and never reassigned by any method. -/
structure ShimmerGSRPlus (α : Type) where
  _device : Driver α
  sampling_rate : Int

namespace ShimmerGSRPlus

/-- Constructor `__init__(sampling_rate)`: stores the driver handle and the
rate. -/
def construct (α : Type) (d : Driver α) (sampling_rate : Int) : ShimmerGSRPlus α :=
  { _device := d, sampling_rate := sampling_rate }

/-- Port selection at the top of `connect`: when `port is None`, the comports
listing is enumerated into `available_ports` keyed by `str(k)` and the
interactive `input()` answer indexes it (a missing key is a `KeyError`);
otherwise `chosen_port = port`. -/
def selectPort (port : Option PortLike) (comports : List String)
    (inputIndex : String) : Except PyErr PortLike :=
  match port with
  | none =>
      let available_ports := comports.enum.map
        (fun kp => (toString kp.1, PortLike.portInfo kp.2))
      match available_ports.lookup inputIndex with
      | some p => .ok p
      | none => .error .keyError
  | some p => .ok p

/-- Method `connect(port)`.  After port selection, the `Selected ...` print
performs the `.device` attribute access on `chosen_port`; then the
driver open and, on success, the three configuration calls run in order with
`return False` on the first failure, and on full success
`print_object_properties` runs and `True` is returned.  The result pairs the
returned value (or raised error) with the driver-call trace; the session
object itself is returned unchanged (no method assigns its fields). -/
def connect (s : ShimmerGSRPlus α) (port : Option PortLike)
    (comports : List String) (inputIndex : String) :
    (Except PyErr Bool × List (Ev α)) × ShimmerGSRPlus α :=
  let r : Except PyErr Bool × List (Ev α) :=
    match selectPort port comports inputIndex with
    | .error e => (.error e, [])
    | .ok chosen_port =>
      match chosen_port.deviceAttr with
      | .error e => (.error e, [])
      | .ok dev =>
        if s._device.connect_result then
          if !s._device.set_sampling_rate_result then
            (.ok false, [.connect dev, .set_sampling_rate s.sampling_rate])
          else if !s._device.set_enabled_sensors_result then
            (.ok false, [.connect dev, .set_sampling_rate s.sampling_rate,
                         .set_enabled_sensors])
          else if !s._device.set_active_gsr_mu_result then
            (.ok false, [.connect dev, .set_sampling_rate s.sampling_rate,
                         .set_enabled_sensors, .set_active_gsr_mu])
          else
            (.ok true, [.connect dev, .set_sampling_rate s.sampling_rate,
                        .set_enabled_sensors, .set_active_gsr_mu,
                        .print_object_properties])
        else
          (.ok false, [.connect dev])
  (r, s)

/-- Method `disconnect()`: `if not self._device.current_state ==
su.BT_CONNECTED` then driver `disconnect(reset_obj_to_init=True)` and
`True`, else `False`. -/
def disconnect (s : ShimmerGSRPlus α) :
    (Bool × List (Ev α)) × ShimmerGSRPlus α :=
  let r : Bool × List (Ev α) :=
    if ¬ s._device.current_state = BtState.btConnected then
      (true, [.read_current_state, .disconnect true])
    else
      (false, [.read_current_state])
  (r, s)

end ShimmerGSRPlus

/-- The `reads` dictionary literal `{'timestamp': [], 'PPG': [], 'EDA': []}`
built per stream iteration (fixed shape, three keys, in this order). -/
structure Reads (α : Type) where
  timestamp : List α
  PPG : List α
  EDA : List α
  deriving DecidableEq, BEq, Repr

/-- The dictionary view of `reads`: its key/value pairs in insertion order. -/
def Reads.toDict (r : Reads α) : List (String × List α) :=
  [("timestamp", r.timestamp), ("PPG", r.PPG), ("EDA", r.EDA)]

/-- The `for pkt in packets` body: `timestamp, ppg, eda = pkt[2], pkt[3],
pkt[4]` (an `IndexError` when the packet is too short), then one append to
each of the three lists. -/
def processPackets : List (List α) → Reads α → Except PyErr (Reads α)
  | [], reads => .ok reads
  | pkt :: rest, reads =>
      match pkt[2]?, pkt[3]?, pkt[4]? with
      | some timestamp, some ppg, some eda =>
          processPackets rest
            { timestamp := reads.timestamp ++ [timestamp]
              PPG := reads.PPG ++ [ppg]
              EDA := reads.EDA ++ [eda] }
      | _, _, _ => .error .indexError

namespace ShimmerGSRPlus

/-- The `while True` loop body of `stream`, unrolled for `k` pulls starting
at the `i`-th driver batch: each iteration calls
`read_data_packet_extended(calibrated=True)`, rebuilds `reads`, and yields
`(n, reads)`. -/
def pullLoop (s : ShimmerGSRPlus α) (i : Nat) :
    Nat → Except PyErr (List (Nat × Reads α)) × List (Ev α)
  | 0 => (.ok [], [])
  | k + 1 =>
      let nb := s._device.batches i
      match processPackets nb.2 { timestamp := [], PPG := [], EDA := [] } with
      | .error e => (.error e, [.read_data_packet_extended true])
      | .ok reads =>
          let rest := pullLoop s (i + 1) k
          (Except.map (fun l => (nb.1, reads) :: l) rest.1,
           .read_data_packet_extended true :: rest.2)

/-- Consuming `k` elements of the generator returned by `stream()`.  Calling
`stream()` itself runs none of the body (Python generator semantics), so
`k = 0` performs no driver interaction; the first pull evaluates the
connection guard, raising `RuntimeError("Bluetooth is not connected.")`
when `current_state != BT_CONNECTED`, and otherwise calls
`start_bt_streaming` once before the pull loop. -/
def streamConsume (s : ShimmerGSRPlus α) :
    Nat → Except PyErr (List (Nat × Reads α)) × List (Ev α)
  | 0 => (.ok [], [])
  | k + 1 =>
      if s._device.current_state = BtState.btConnected then
        let res := pullLoop s 0 (k + 1)
        (res.1, .read_current_state :: .start_bt_streaming :: res.2)
      else
        (.error (.runtimeError "Bluetooth is not connected."),
         [.read_current_state])

end ShimmerGSRPlus

/-! ## Derived characterizations used by the theorems -/

/-- Order-preserving per-packet field extraction: the `reads` value that one
stream iteration builds from a packet list, described directly (field `j` of
each packet, in arrival order). -/
def extractedReads (pkts : List (List α)) : Reads α :=
  { timestamp := pkts.filterMap (fun pkt => pkt[2]?)
    PPG := pkts.filterMap (fun pkt => pkt[3]?)
    EDA := pkts.filterMap (fun pkt => pkt[4]?) }

/-- Method `stream` contains no assignment to `self` fields; this pairs the
consumed prefix with the (unchanged) session object. -/
def ShimmerGSRPlus.streamS (s : ShimmerGSRPlus α) (k : Nat) :
    (Except PyErr (List (Nat × Reads α)) × List (Ev α)) × ShimmerGSRPlus α :=
  (s.streamConsume k, s)

/-- A stub driver with a given state and configuration outcomes and an empty
batch supply (used to instantiate the theorems at concrete inputs). -/
def stubDriver (st : BtState) (c r e g : Bool) : Driver ℚ :=
  { current_state := st
    connect_result := c
    set_sampling_rate_result := r
    set_enabled_sensors_result := e
    set_active_gsr_mu_result := g
    batches := fun _ => (0, []) }

/-- The stub driver of the spec's two-batch streaming example:
batch 1 = one packet with timestamp 100, PPG 0.5, EDA 1.2;
batch 2 = one packet with timestamp 101, PPG 0.6, EDA 1.3
(tuple indices 2, 3, 4; the leading two fields are other channels). -/
def demoDriver : Driver ℚ :=
  { current_state := .btConnected
    connect_result := true
    set_sampling_rate_result := true
    set_enabled_sensors_result := true
    set_active_gsr_mu_result := true
    batches := fun i =>
      if i = 0 then (1, [[0, 0, 100, 1/2, 6/5]])
      else (1, [[0, 0, 101, 3/5, 13/10]]) }

/-- A stub driver whose reported packet count (7) differs from the number of
packets actually delivered (1): the wrapper passes the count through
unchecked. -/
def misreportDriver : Driver ℚ :=
  { current_state := .btConnected
    connect_result := true
    set_sampling_rate_result := true
    set_enabled_sensors_result := true
    set_active_gsr_mu_result := true
    batches := fun _ => (7, [[0, 0, 100, 1/2, 6/5]]) }

theorem processPackets_ok {α : Type} (pkts : List (List α)) (acc : Reads α)
    (h : ∀ pkt ∈ pkts, 5 ≤ pkt.length) :
    processPackets pkts acc = .ok
      { timestamp := acc.timestamp ++ pkts.filterMap (fun pkt => pkt[2]?)
        PPG := acc.PPG ++ pkts.filterMap (fun pkt => pkt[3]?)
        EDA := acc.EDA ++ pkts.filterMap (fun pkt => pkt[4]?) } := by
  induction pkts generalizing acc with
  | nil => simp [processPackets]
  | cons pkt rest ih =>
      have h5 : 5 ≤ pkt.length := h pkt (List.mem_cons_self _ _)
      have h2 : pkt[2]? = some pkt[2] := List.getElem?_eq_getElem (by omega)
      have h3 : pkt[3]? = some pkt[3] := List.getElem?_eq_getElem (by omega)
      have h4 : pkt[4]? = some pkt[4] := List.getElem?_eq_getElem (by omega)
      rw [processPackets, h2, h3, h4]
      simp only []
      rw [ih _ (fun p hp => h p (List.mem_cons_of_mem _ hp))]
      simp [List.filterMap_cons, h2, h3, h4, List.append_assoc]

theorem filterMap_getElem_length {α : Type} (j : Nat) (pkts : List (List α))
    (h : ∀ pkt ∈ pkts, j < pkt.length) :
    (pkts.filterMap (fun pkt => pkt[j]?)).length = pkts.length := by
  induction pkts with
  | nil => rfl
  | cons pkt rest ih =>
      have hb : j < pkt.length := h pkt (List.mem_cons_self _ _)
      have hj : pkt[j]? = some pkt[j] := List.getElem?_eq_getElem hb
      simp [List.filterMap_cons, hj,
            ih (fun p hp => h p (List.mem_cons_of_mem _ hp))]

theorem pullLoop_ok {α : Type} (s : ShimmerGSRPlus α) :
    ∀ (k i : Nat),
    (∀ j, j < k → ∀ pkt ∈ (s._device.batches (i + j)).2, 5 ≤ pkt.length) →
    s.pullLoop i k =
      (.ok ((List.range k).map (fun m =>
          ((s._device.batches (i + m)).1,
           extractedReads (s._device.batches (i + m)).2))),
       List.replicate k (Ev.read_data_packet_extended true)) := by
  intro k
  induction k with
  | zero => intro i _; rfl
  | succ k ih =>
      intro i h
      have h0 : ∀ pkt ∈ (s._device.batches i).2, 5 ≤ pkt.length := by
        have := h 0 (Nat.succ_pos k); simpa using this
      rw [ShimmerGSRPlus.pullLoop, processPackets_ok _ _ h0]
      rw [ih (i + 1) (fun j hj => by
        have := h (j + 1) (Nat.succ_lt_succ hj)
        simpa [Nat.add_assoc, Nat.add_comm, Nat.add_left_comm] using this)]
      simp [List.range_succ_eq_map, extractedReads, List.replicate_succ,
            Function.comp, Except.map, Nat.succ_eq_add_one,
            Nat.add_assoc, Nat.add_comm, Nat.add_left_comm]

theorem streamConsume_succ_ok {α : Type} (s : ShimmerGSRPlus α) (k : Nat)
    (hconn : s._device.current_state = BtState.btConnected)
    (hlen : ∀ j, j < k + 1 → ∀ pkt ∈ (s._device.batches j).2, 5 ≤ pkt.length) :
    s.streamConsume (k + 1) =
      (.ok ((List.range (k + 1)).map (fun i =>
          ((s._device.batches i).1, extractedReads (s._device.batches i).2))),
       Ev.read_current_state :: Ev.start_bt_streaming ::
         List.replicate (k + 1) (Ev.read_data_packet_extended true)) := by
  rw [ShimmerGSRPlus.streamConsume, if_pos hconn]
  rw [pullLoop_ok s (k + 1) 0 (fun j hj => by simpa using hlen j hj)]
  simp

/-! ## Claims -/

/-- C1: for every driver outcome, `connect(port)` (with a port value exposing
a `device` path) returns `True` exactly when the driver open and all three
configuration calls (sampling rate, GSR + auxiliary ADC channels, GSR
measurement unit) succeed, and `False` in every other case, including open
failure. -/
theorem connect_true_iff_all_config_succeed {α : Type} (d : Driver α)
    (rate : Int) (dev : String) (cp : List String) (idx : String) :
    ((ShimmerGSRPlus.construct α d rate).connect
        (some (.portInfo dev)) cp idx).1.1
      = .ok (d.connect_result && d.set_sampling_rate_result
             && d.set_enabled_sensors_result && d.set_active_gsr_mu_result) := by
  cases d with
  | mk cs cr sr se sg b =>
      cases cr <;> cases sr <;> cases se <;> cases sg <;> rfl

/-- C2: `disconnect()` has the inverted guard: when the driver state is not
`BT_CONNECTED` it performs the driver `disconnect(reset_obj_to_init=True)`
and returns `True`; when the state is `BT_CONNECTED` it returns `False` and
performs no driver disconnect/reset call. -/
theorem disconnect_guard_inverted {α : Type} (s : ShimmerGSRPlus α) :
    (s._device.current_state ≠ BtState.btConnected →
       s.disconnect.1 = (true, [.read_current_state, .disconnect true])) ∧
    (s._device.current_state = BtState.btConnected →
       s.disconnect.1 = (false, [.read_current_state])) := by
  constructor
  · intro h
    simp [ShimmerGSRPlus.disconnect, h]
  · intro h
    simp [ShimmerGSRPlus.disconnect, h]

/-- Witness for C2 on concrete stub drivers: disconnected stub → `True` with
a reset call; connected stub → `False` with no reset call. -/
theorem disconnect_guard_inverted_witness :
    (ShimmerGSRPlus.construct ℚ (stubDriver .idle true true true true) 64).disconnect.1
        = (true, [.read_current_state, .disconnect true]) ∧
    (ShimmerGSRPlus.construct ℚ (stubDriver .btConnected true true true true) 64).disconnect.1
        = (false, [.read_current_state]) :=
  ⟨(disconnect_guard_inverted _).1 (by decide),
   (disconnect_guard_inverted _).2 rfl⟩

/-- C3: pulling from `stream()` while the driver state is not `BT_CONNECTED`
raises the "not connected" runtime error (whose message carries the words
"not connected") with no driver connect or streaming-start call; when the
state is `BT_CONNECTED` (and the driver delivers well-formed packet tuples)
it does not fail, and the first driver action after the state check is
`start_bt_streaming`. -/
theorem stream_requires_connected {α : Type} (s : ShimmerGSRPlus α) (k : Nat) :
    ((String.toList "not connected").IsInfix
        (String.toList "Bluetooth is not connected.")) ∧
    (s._device.current_state ≠ BtState.btConnected →
       s.streamConsume (k + 1)
         = (.error (.runtimeError "Bluetooth is not connected."),
            [.read_current_state])) ∧
    (s._device.current_state = BtState.btConnected →
       (∀ j, j < k + 1 → ∀ pkt ∈ (s._device.batches j).2, 5 ≤ pkt.length) →
       (∃ out, (s.streamConsume (k + 1)).1 = .ok out) ∧
       ∃ tr, (s.streamConsume (k + 1)).2
           = Ev.read_current_state :: Ev.start_bt_streaming :: tr) := by
  refine ⟨⟨String.toList "Bluetooth is ", String.toList ".", rfl⟩,
          fun h => ?_, fun hconn hlen => ?_⟩
  · rw [ShimmerGSRPlus.streamConsume, if_neg h]
  · rw [streamConsume_succ_ok s k hconn hlen]
    exact ⟨⟨_, rfl⟩, ⟨_, rfl⟩⟩

/-- Witness for C3: a disconnected stub makes the first pull raise the
runtime error with only the state check in the trace; the connected two-batch
demo driver streams without failing. -/
theorem stream_requires_connected_witness :
    (ShimmerGSRPlus.construct ℚ (stubDriver .idle true true true true) 64).streamConsume 1
        = (.error (.runtimeError "Bluetooth is not connected."),
           [.read_current_state]) ∧
    ∃ out, ((ShimmerGSRPlus.construct ℚ demoDriver 64).streamConsume 1).1
        = .ok out := by
  refine ⟨(stream_requires_connected
            (ShimmerGSRPlus.construct ℚ (stubDriver .idle true true true true) 64)
            0).2.1 (by decide), ?_⟩
  exact ((stream_requires_connected (ShimmerGSRPlus.construct ℚ demoDriver 64)
            0).2.2 rfl (by decide)).1

/-- C4: during `connect` the three post-open configuration steps run in
order; the first failing step short-circuits to a `False` return with no
later configuration call attempted, no driver disconnect/reset (no rollback),
and no exception raised on any configuration failure. -/
theorem connect_config_short_circuit {α : Type} (d : Driver α) (rate : Int)
    (dev : String) (cp : List String) (idx : String) :
    (∃ b, ((ShimmerGSRPlus.construct α d rate).connect
              (some (.portInfo dev)) cp idx).1.1 = .ok b) ∧
    (∀ e ∈ ((ShimmerGSRPlus.construct α d rate).connect
              (some (.portInfo dev)) cp idx).1.2, ∀ b, e ≠ Ev.disconnect b) ∧
    (d.connect_result = true → d.set_sampling_rate_result = false →
       ((ShimmerGSRPlus.construct α d rate).connect (some (.portInfo dev)) cp idx).1
         = (.ok false, [.connect dev, .set_sampling_rate rate])) ∧
    (d.connect_result = true → d.set_sampling_rate_result = true →
       d.set_enabled_sensors_result = false →
       ((ShimmerGSRPlus.construct α d rate).connect (some (.portInfo dev)) cp idx).1
         = (.ok false, [.connect dev, .set_sampling_rate rate,
                        .set_enabled_sensors])) ∧
    (d.connect_result = true → d.set_sampling_rate_result = true →
       d.set_enabled_sensors_result = true → d.set_active_gsr_mu_result = false →
       ((ShimmerGSRPlus.construct α d rate).connect (some (.portInfo dev)) cp idx).1
         = (.ok false, [.connect dev, .set_sampling_rate rate,
                        .set_enabled_sensors, .set_active_gsr_mu])) := by
  cases d with
  | mk cs cr sr se sg b =>
      cases cr <;> cases sr <;> cases se <;> cases sg <;>
        refine ⟨⟨_, rfl⟩, ?_, ?_, ?_, ?_⟩ <;>
          simp [ShimmerGSRPlus.connect, ShimmerGSRPlus.construct,
                ShimmerGSRPlus.selectPort, PortLike.deviceAttr]

/-- Witness for C4: stub drivers failing at each of the three configuration
steps in turn produce exactly the short-circuited traces. -/
theorem connect_config_short_circuit_witness :
    ((ShimmerGSRPlus.construct ℚ (stubDriver .idle true false true true) 64).connect
        (some (.portInfo "/dev/ttyUSB0")) [] "").1
      = (.ok false, [.connect "/dev/ttyUSB0", .set_sampling_rate 64]) ∧
    ((ShimmerGSRPlus.construct ℚ (stubDriver .idle true true false true) 64).connect
        (some (.portInfo "/dev/ttyUSB0")) [] "").1
      = (.ok false, [.connect "/dev/ttyUSB0", .set_sampling_rate 64,
                     .set_enabled_sensors]) ∧
    ((ShimmerGSRPlus.construct ℚ (stubDriver .idle true true true false) 64).connect
        (some (.portInfo "/dev/ttyUSB0")) [] "").1
      = (.ok false, [.connect "/dev/ttyUSB0", .set_sampling_rate 64,
                     .set_enabled_sensors, .set_active_gsr_mu]) :=
  ⟨(connect_config_short_circuit _ _ _ _ _).2.2.1 rfl rfl,
   (connect_config_short_circuit _ _ _ _ _).2.2.2.1 rfl rfl rfl,
   (connect_config_short_circuit _ _ _ _ _).2.2.2.2 rfl rfl rfl rfl⟩

/-- C5: on the spec's two-batch stub driver, two iterations of `stream()`
yield exactly `(1, {timestamp: [100], PPG: [0.5], EDA: [1.2]})` and then
`(1, {timestamp: [101], PPG: [0.6], EDA: [1.3]})`, each iteration performing
exactly one driver batch pull. -/
theorem stream_two_batch_demo :
    (ShimmerGSRPlus.construct ℚ demoDriver 64).streamConsume 2
      = (.ok [(1, { timestamp := [100], PPG := [1/2], EDA := [6/5] }),
              (1, { timestamp := [101], PPG := [3/5], EDA := [13/10] })],
         [.read_current_state, .start_bt_streaming,
          .read_data_packet_extended true, .read_data_packet_extended true]) := by
  rfl

/-- C7 (code defect evidence): with a plain string `port` argument — the
argument type the function's own docstring documents — `connect` evaluates
`chosen_port.device` on a `str` and raises `AttributeError` before any driver
call, instead of using the string as the driver's `com_port`. -/
theorem connect_string_port_raises :
    ((ShimmerGSRPlus.construct ℚ (stubDriver .idle true true true true) 64).connect
        (some (.pyStr "/dev/ttyUSB0")) [] "").1
      = (.error .attributeError, []) := rfl

/-- C10: the not-connected check of `stream()` is deferred to consumption:
creating the generator and pulling nothing performs no driver interaction and
raises nothing, while pulling the first element from a not-connected session
evaluates the guard and raises the runtime error. -/
theorem stream_guard_deferred {α : Type} (s : ShimmerGSRPlus α) :
    s.streamConsume 0 = (.ok [], []) ∧
    (s._device.current_state ≠ BtState.btConnected →
       s.streamConsume 1
         = (.error (.runtimeError "Bluetooth is not connected."),
            [.read_current_state])) := by
  refine ⟨rfl, fun h => ?_⟩
  show (if s._device.current_state = BtState.btConnected then _ else _) = _
  rw [if_neg h]

/-- Witness for C10: a stub driver in the streaming (not connected) state —
pulling nothing is silent, pulling one element raises. -/
theorem stream_guard_deferred_witness :
    (ShimmerGSRPlus.construct ℚ (stubDriver .btStreaming true true true true)
        64).streamConsume 1
      = (.error (.runtimeError "Bluetooth is not connected."),
         [.read_current_state]) :=
  (stream_guard_deferred _).2 (by decide)

/-- C6: for the driver's arbitrary batch sequence (of well-formed packet
tuples), `k` consumed iterations of `stream()` yield exactly the first `k`
driver batches in arrival order, each batch being the in-order per-packet
field extraction (no reordering, no drops), with exactly one driver pull per
yielded batch (no buffering beyond the batch being yielded). -/
theorem stream_preserves_driver_order {α : Type} (s : ShimmerGSRPlus α)
    (k : Nat) (hconn : s._device.current_state = BtState.btConnected)
    (hlen : ∀ j, j < k → ∀ pkt ∈ (s._device.batches j).2, 5 ≤ pkt.length) :
    (s.streamConsume k).1
      = .ok ((List.range k).map (fun i =>
          ((s._device.batches i).1, extractedReads (s._device.batches i).2))) ∧
    (s.streamConsume k).2
      = (if k = 0 then [] else
          Ev.read_current_state :: Ev.start_bt_streaming ::
            List.replicate k (Ev.read_data_packet_extended true)) := by
  cases k with
  | zero => exact ⟨rfl, rfl⟩
  | succ k =>
      rw [streamConsume_succ_ok s k hconn hlen]
      exact ⟨rfl, by simp⟩

/-- Witness for C6 on the concrete two-batch demo driver. -/
theorem stream_preserves_driver_order_witness :
    ((ShimmerGSRPlus.construct ℚ demoDriver 64).streamConsume 2).1
      = .ok ((List.range 2).map (fun i =>
          ((demoDriver.batches i).1, extractedReads (demoDriver.batches i).2))) :=
  (stream_preserves_driver_order (ShimmerGSRPlus.construct ℚ demoDriver 64) 2
      rfl (by decide)).1

theorem connect_trace_rate {α : Type} (d : Driver α) (rate : Int)
    (port : Option PortLike) (cp : List String) (idx : String) (hz : Int)
    (hmem : Ev.set_sampling_rate hz ∈
        ((ShimmerGSRPlus.construct α d rate).connect port cp idx).1.2) :
    hz = rate := by
  unfold ShimmerGSRPlus.connect at hmem
  rcases hsel : ShimmerGSRPlus.selectPort port cp idx with e | chosen <;>
    rw [hsel] at hmem
  · simp at hmem
  · rcases chosen with str | dev
    · simp [PortLike.deviceAttr] at hmem
    · obtain ⟨cs, cr, sr, se, sg, b⟩ := d
      cases cr <;> cases sr <;> cases se <;> cases sg <;>
        (simp [PortLike.deviceAttr, ShimmerGSRPlus.construct] at hmem;
         try exact hmem)

/-- C8: `sampling_rate` is fixed at construction: the constructed session
carries the given rate, no operation (`connect`, `stream`, `disconnect`)
changes the session's `sampling_rate` field, every `set_sampling_rate` call
`connect` makes to the driver carries exactly the construction-time rate, and
on a successful driver open that call is actually made. -/
theorem sampling_rate_immutable {α : Type} (d : Driver α) (rate : Int)
    (port : Option PortLike) (cp : List String) (idx : String)
    (dev : String) (k : Nat) :
    (ShimmerGSRPlus.construct α d rate).sampling_rate = rate ∧
    ((ShimmerGSRPlus.construct α d rate).connect port cp idx).2.sampling_rate
        = rate ∧
    ((ShimmerGSRPlus.construct α d rate).streamS k).2.sampling_rate = rate ∧
    ((ShimmerGSRPlus.construct α d rate).disconnect).2.sampling_rate = rate ∧
    (∀ hz, Ev.set_sampling_rate hz ∈
        ((ShimmerGSRPlus.construct α d rate).connect port cp idx).1.2 →
          hz = rate) ∧
    (d.connect_result = true →
       Ev.set_sampling_rate rate ∈
         ((ShimmerGSRPlus.construct α d rate).connect
             (some (.portInfo dev)) cp idx).1.2) := by
  obtain ⟨cs, cr, sr, se, sg, b⟩ := d
  refine ⟨rfl, rfl, rfl, rfl,
          fun hz hmem => connect_trace_rate _ _ _ _ _ _ hmem, fun hcr => ?_⟩
  cases cr
  · simp at hcr
  · cases sr <;> cases se <;> cases sg <;>
      simp [ShimmerGSRPlus.connect, ShimmerGSRPlus.construct,
            ShimmerGSRPlus.selectPort, PortLike.deviceAttr]

/-- Witness for C8: a fully succeeding stub driver receives
`set_sampling_rate` with exactly the construction-time rate. -/
theorem sampling_rate_immutable_witness :
    Ev.set_sampling_rate 64 ∈
      ((ShimmerGSRPlus.construct ℚ (stubDriver .idle true true true true)
          64).connect (some (.portInfo "/dev/ttyUSB0")) [] "").1.2 :=
  (sampling_rate_immutable (stubDriver .idle true true true true) 64
      (some (.portInfo "/dev/ttyUSB0")) [] "" "/dev/ttyUSB0" 0).2.2.2.2.2 rfl

/-- C9: every `(count, batch)` pair yielded by `stream()` has a batch
dictionary with exactly the keys `timestamp`, `PPG`, `EDA` (in that order),
the three lists all have length equal to the number of packets the driver
delivered in that pull, and the yielded count is the driver-reported count
passed through unchanged (never recomputed from the packet list, so a
misreported count may differ from the list lengths). -/
theorem stream_batch_shape {α : Type} (s : ShimmerGSRPlus α) (k : Nat)
    (hconn : s._device.current_state = BtState.btConnected)
    (hlen : ∀ j, j < k → ∀ pkt ∈ (s._device.batches j).2, 5 ≤ pkt.length) :
    ∃ out, (s.streamConsume k).1 = .ok out ∧ out.length = k ∧
      ∀ i, i < k →
        out[i]? = some ((s._device.batches i).1,
                        extractedReads (s._device.batches i).2) ∧
        (extractedReads (s._device.batches i).2).toDict.map Prod.fst
            = ["timestamp", "PPG", "EDA"] ∧
        (extractedReads (s._device.batches i).2).timestamp.length
            = (s._device.batches i).2.length ∧
        (extractedReads (s._device.batches i).2).PPG.length
            = (s._device.batches i).2.length ∧
        (extractedReads (s._device.batches i).2).EDA.length
            = (s._device.batches i).2.length := by
  refine ⟨(List.range k).map (fun i =>
      ((s._device.batches i).1, extractedReads (s._device.batches i).2)),
      ?_, by simp, fun i hi => ?_⟩
  · cases k with
    | zero => rfl
    | succ k => exact (streamConsume_succ_ok s k hconn hlen ▸ rfl)
  · refine ⟨?_, rfl, ?_, ?_, ?_⟩
    · rw [List.getElem?_map, List.getElem?_range hi]; rfl
    · exact filterMap_getElem_length 2 _ (fun pkt hp => by
        have := hlen i hi pkt hp; omega)
    · exact filterMap_getElem_length 3 _ (fun pkt hp => by
        have := hlen i hi pkt hp; omega)
    · exact filterMap_getElem_length 4 _ (fun pkt hp => by
        have := hlen i hi pkt hp; omega)

/-- Witness for C9 on the misreporting stub driver: the yielded pair carries
the driver-reported count 7 while all three lists have length 1 (the single
delivered packet). -/
theorem stream_batch_shape_witness :
    ∃ out, ((ShimmerGSRPlus.construct ℚ misreportDriver 64).streamConsume 1).1
        = .ok out ∧ out.length = 1 ∧
      ∀ i, i < 1 →
        out[i]? = some ((misreportDriver.batches i).1,
                        extractedReads (misreportDriver.batches i).2) ∧
        (extractedReads (misreportDriver.batches i).2).toDict.map Prod.fst
            = ["timestamp", "PPG", "EDA"] ∧
        (extractedReads (misreportDriver.batches i).2).timestamp.length
            = (misreportDriver.batches i).2.length ∧
        (extractedReads (misreportDriver.batches i).2).PPG.length
            = (misreportDriver.batches i).2.length ∧
        (extractedReads (misreportDriver.batches i).2).EDA.length
            = (misreportDriver.batches i).2.length :=
  stream_batch_shape (ShimmerGSRPlus.construct ℚ misreportDriver 64) 1
    rfl (by decide)
